import Mathlib

/-!
Verification of the crypto-trading signal-scoring service.

The embedding models the two Python modules of the repository:

* `ml_service/signal_classifier.py` — the online scoring service:
  the request/response data model, the serving-time feature vector,
  the rule-based fallback scorer, the recommendation threshold and the
  confidence banding of `predict_signal`.
* `ml_service/train_model.py` — the offline training pipeline:
  the data-fetch fallback logic of `fetch_trade_data`, the synthetic
  record generator `generate_synthetic_data` and the training-time
  feature matrix of `prepare_features`.

Numeric fields are embedded as rational numbers (exact arithmetic over the
decimal constants the source uses); randomness is embedded by passing the
drawn values explicitly; a fallible model invocation is embedded as a
function into `Except`.
-/

namespace MLService

/-- Request body of the scoring endpoint (`SignalRequest`, signal_classifier.py
lines 24-36): symbol, side, and nine numeric indicator fields. The pydantic
model declares `side : str` with only a comment restricting it to BUY/SELL. -/
structure SignalRequest where
  symbol : String
  side : String
  rsi : ℚ
  macd : ℚ
  macd_signal : ℚ
  ema_alignment : ℚ
  atr_percent : ℚ
  volume_ratio : ℚ
  cvd : ℚ
  adx : ℚ
  price : ℚ
deriving DecidableEq, Repr

/-- Response body of the scoring endpoint (`SignalResponse`, lines 39-45). -/
structure SignalResponse where
  symbol : String
  side : String
  probability : ℚ
  recommended : Bool
  confidence : String
deriving DecidableEq, Repr

/-- Serving-time feature vector (signal_classifier.py lines 89-100): the
row passed to the model, in source order, with the MACD histogram derived
at position 3 and the side encoded at position 9. -/
def features (request : SignalRequest) : List ℚ :=
  [ request.rsi,
    request.macd,
    request.macd_signal,
    request.macd - request.macd_signal,
    request.ema_alignment,
    request.atr_percent,
    request.volume_ratio,
    request.cvd,
    request.adx,
    if request.side = "BUY" then 1 else 0 ]

/-- Rule-based fallback scorer (`calculate_fallback_score`, lines 136-176):
base 0.5, additive bonuses for RSI band, ADX strength, CVD, volume and EMA
alignment, clamped to [0, 1]. -/
def calculate_fallback_score (request : SignalRequest) : ℚ :=
  let score : ℚ := 1/2
  let score := score +
    (if request.side = "BUY" then
      if 40 ≤ request.rsi ∧ request.rsi ≤ 60 then 1/10
      else if request.rsi < 30 then 1/20
      else 0
    else
      if 40 ≤ request.rsi ∧ request.rsi ≤ 60 then 1/10
      else if request.rsi > 70 then 1/20
      else 0)
  let score := score +
    (if request.adx > 25 then 3/20
     else if request.adx > 20 then 2/25
     else 0)
  let score := score +
    (if (request.side = "BUY" ∧ request.cvd > 0) ∨
        (request.side = "SELL" ∧ request.cvd < 0) then 1/10
     else 0)
  let score := score +
    (if request.volume_ratio > 6/5 then 1/10 else 0)
  let score := score +
    (if (request.side = "BUY" ∧ request.ema_alignment > 0) ∨
        (request.side = "SELL" ∧ request.ema_alignment < 0) then 1/10
     else 0)
  max 0 (min 1 score)

/-- Confidence banding of `predict_signal` (lines 113-119): HIGH at and
above 0.8, MEDIUM at and above 0.6, LOW below. -/
def confidence_of (probability : ℚ) : String :=
  if probability ≥ 8/10 then "HIGH"
  else if probability ≥ 6/10 then "MEDIUM"
  else "LOW"

/-- A loaded model, as the scoring path sees it: a map from the feature row
to a probability that may fail (malformed artifact, shape mismatch). -/
abbrev ModelFn := List ℚ → Except String ℚ

/-- The scoring endpoint (`predict_signal`, lines 73-133). The whole body
runs in a try/except: the feature row is built, the probability comes from
the model when one is loaded (else from the fallback scorer), the threshold
and the confidence band are applied. An exception raised by the model
propagates to the handler, which re-raises it as an HTTP 500 — embedded as
`Except.error`. `min_probability` is the configured threshold
(environment variable, default 0.6). -/
def predict_signal (model : Option ModelFn) (min_probability : ℚ)
    (request : SignalRequest) : Except String SignalResponse :=
  let feats := features request
  let prob : Except String ℚ :=
    match model with
    | some m => m feats
    | none => Except.ok (calculate_fallback_score request)
  match prob with
  | Except.error e => Except.error e
  | Except.ok probability =>
      let recommended : Bool := decide (probability ≥ min_probability)
      let confidence := confidence_of probability
      Except.ok
        { symbol := request.symbol
          side := request.side
          probability := probability
          recommended := recommended
          confidence := confidence }

/-- One row of the Flux query result assembled by `fetch_trade_data`
(train_model.py lines 60-70): timestamp, symbol, side, pnl, entry and exit
price. -/
structure InfluxRecord where
  timestamp : ℚ
  symbol : String
  side : String
  pnl : ℚ
  entry_price : ℚ
  exit_price : ℚ
deriving DecidableEq, Repr

/-- One synthetic trade produced by `generate_synthetic_data`
(train_model.py lines 147-160): the nine indicators, the side, the pnl and
the binary win label. -/
structure TradeRecord where
  side : String
  rsi : ℚ
  macd : ℚ
  macd_signal : ℚ
  ema_alignment : ℚ
  atr_percent : ℚ
  volume_ratio : ℚ
  cvd : ℚ
  adx : ℚ
  price : ℚ
  pnl : ℚ
  win : ℕ
deriving DecidableEq, Repr

/-- The values `np.random` draws for one synthetic sample
(train_model.py lines 100-110 and 144-145): the BUY/SELL choice, the nine
indicator draws (the MACD signal is the MACD draw plus an offset), the
outcome draw compared against the win probability, and the two candidate
pnl draws. -/
structure SampleDraws where
  sideIsBuy : Bool
  rsi : ℚ
  macd : ℚ
  macdOffset : ℚ
  ema_alignment : ℚ
  atr_percent : ℚ
  volume_ratio : ℚ
  cvd : ℚ
  adx : ℚ
  price : ℚ
  outcome : ℚ
  pnlWin : ℚ
  pnlLoss : ℚ
deriving DecidableEq, Repr

/-- The "realistic" win probability of one synthetic sample
(`generate_synthetic_data`, train_model.py lines 113-141): base 0.5, an RSI
term that can add 0.1 or subtract 0.15, then ADX, CVD, volume and EMA
bonuses. No clamping is applied. -/
def synthetic_win_prob (side : String) (rsi adx cvd volume_ratio
    ema_alignment : ℚ) : ℚ :=
  let win_prob : ℚ := 1/2
  let win_prob := win_prob +
    (if side = "BUY" then
      if rsi < 40 then 1/10
      else if rsi > 70 then -(3/20)
      else 0
    else
      if rsi > 60 then 1/10
      else if rsi < 30 then -(3/20)
      else 0)
  let win_prob := win_prob + (if adx > 25 then 3/20 else 0)
  let win_prob := win_prob +
    (if (side = "BUY" ∧ cvd > 0) ∨ (side = "SELL" ∧ cvd < 0) then 1/10
     else 0)
  let win_prob := win_prob + (if volume_ratio > 6/5 then 1/20 else 0)
  let win_prob := win_prob +
    (if (side = "BUY" ∧ ema_alignment > 0) ∨
        (side = "SELL" ∧ ema_alignment < 0) then 1/10
     else 0)
  win_prob

/-- Builds the record of one synthetic sample from its draws
(`generate_synthetic_data` loop body, train_model.py lines 99-160). -/
def synthetic_record (d : SampleDraws) : TradeRecord :=
  let side := if d.sideIsBuy then "BUY" else "SELL"
  let macd_signal := d.macd + d.macdOffset
  let win_prob :=
    synthetic_win_prob side d.rsi d.adx d.cvd d.volume_ratio d.ema_alignment
  let win : ℕ := if d.outcome < win_prob then 1 else 0
  let pnl := if win = 1 then d.pnlWin else d.pnlLoss
  { side := side
    rsi := d.rsi
    macd := d.macd
    macd_signal := macd_signal
    ema_alignment := d.ema_alignment
    atr_percent := d.atr_percent
    volume_ratio := d.volume_ratio
    cvd := d.cvd
    adx := d.adx
    price := d.price
    pnl := pnl
    win := win }

/-- `generate_synthetic_data` (train_model.py lines 89-162), with the
pseudo-random draws of the fixed-seed generator passed explicitly: one
record per list of draws. -/
def generate_synthetic_data (draws : List SampleDraws) : List TradeRecord :=
  draws.map synthetic_record

/-- A row of the DataFrame returned by `fetch_trade_data`: either a record
fetched from InfluxDB or a synthetic one (pd.concat of the two frames). -/
inductive Row where
  | fetched : InfluxRecord → Row
  | synthetic : TradeRecord → Row
deriving DecidableEq, Repr

/-- `fetch_trade_data` (train_model.py lines 31-86): when no InfluxDB token
is configured it returns synthetic data; when the query raises it catches
the exception and returns synthetic data; when the query yields fewer than
50 records it returns them supplemented with synthetic data; otherwise it
returns the fetched records. The query outcome is passed explicitly as an
`Except`. -/
def fetch_trade_data (tokenConfigured : Bool)
    (queryResult : Except String (List InfluxRecord))
    (draws : List SampleDraws) : List Row :=
  if tokenConfigured = false then
    (generate_synthetic_data draws).map Row.synthetic
  else
    match queryResult with
    | Except.error _ => (generate_synthetic_data draws).map Row.synthetic
    | Except.ok records =>
        if records.length < 50 then
          records.map Row.fetched ++
            (generate_synthetic_data draws).map Row.synthetic
        else
          records.map Row.fetched

/-- One row of the training feature matrix X built by `prepare_features`
(train_model.py lines 183-188): the eight selected columns in source order,
then the appended derived columns `macd_histogram` and `side_encoded`. -/
def prepare_features_row (rec : TradeRecord) : List ℚ :=
  [ rec.rsi,
    rec.macd,
    rec.macd_signal,
    rec.ema_alignment,
    rec.atr_percent,
    rec.volume_ratio,
    rec.cvd,
    rec.adx,
    rec.macd - rec.macd_signal,
    if rec.side = "BUY" then 1 else 0 ]

/-- The worked example of the specification: a BUY signal on which all
five fallback bonuses fire. -/
def reqC7 : SignalRequest :=
  { symbol := "BTCUSDT", side := "BUY", rsi := 50, macd := 1/10,
    macd_signal := 1/20, ema_alignment := 1, atr_percent := 3/2,
    volume_ratio := 3/2, cvd := 100, adx := 30, price := 50000 }

/-- A request whose nine numeric fields are pairwise distinct, used to
compare the serving-time feature row with the training-time one. -/
def reqOrder : SignalRequest :=
  { symbol := "S", side := "SELL", rsi := 1, macd := 2, macd_signal := 3,
    ema_alignment := 4, atr_percent := 5, volume_ratio := 6, cvd := 7,
    adx := 8, price := 9 }

/-- The training record carrying the same field values as `reqOrder`. -/
def recOrder : TradeRecord :=
  { side := "SELL", rsi := 1, macd := 2, macd_signal := 3,
    ema_alignment := 4, atr_percent := 5, volume_ratio := 6, cvd := 7,
    adx := 8, price := 9, pnl := 0, win := 0 }

/-- A request whose side is the unexpected string LONG, with indicator
values on which a SELL would earn the CVD and EMA bonuses. -/
def reqLong : SignalRequest :=
  { symbol := "BTCUSDT", side := "LONG", rsi := 50, macd := 0,
    macd_signal := 0, ema_alignment := -1, atr_percent := 1,
    volume_ratio := 1, cvd := -100, adx := 10, price := 1000 }

/-- The same request as `reqLong` with side SELL. -/
def reqLongAsSell : SignalRequest := { reqLong with side := "SELL" }

/-- A SELL request on which no fallback bonus fires: the score stays at
the base 0.5. -/
def reqBase : SignalRequest :=
  { symbol := "ETHUSDT", side := "SELL", rsi := 0, macd := 0,
    macd_signal := 0, ema_alignment := 0, atr_percent := 1,
    volume_ratio := 1, cvd := 0, adx := 0, price := 1000 }

/-- Claim C1: the serving-time feature row and the training-time feature
row are claimed to agree position for position. Both have ten entries, but
on a record whose field values are pairwise distinct the rows differ:
serving puts the MACD histogram (here 2 − 3 = −1) at position 3, while
training places `ema_alignment` (here 4) there and appends the histogram
at position 8. -/
theorem feature_order_mismatch :
    (features reqOrder).length = 10 ∧
    (prepare_features_row recOrder).length = 10 ∧
    features reqOrder ≠ prepare_features_row recOrder ∧
    features reqOrder = [1, 2, 3, -1, 4, 5, 6, 7, 8, 0] ∧
    prepare_features_row recOrder = [1, 2, 3, 4, 5, 6, 7, 8, -1, 0] := by
  have hside : ("SELL" : String) ≠ "BUY" := by decide
  have h1 : features reqOrder = [1, 2, 3, -1, 4, 5, 6, 7, 8, 0] := by
    norm_num [features, reqOrder, hside]
  have h2 : prepare_features_row recOrder = [1, 2, 3, 4, 5, 6, 7, 8, -1, 0] := by
    norm_num [prepare_features_row, recOrder, hside]
  refine ⟨rfl, rfl, ?_, h1, h2⟩
  rw [h1, h2]
  norm_num

/-- Claim C7: on the worked specification BUY example all five bonuses
fire, the raw sum 0.5 + 0.10 + 0.15 + 0.10 + 0.10 + 0.10 = 1.05 is clamped
to 1, the confidence is HIGH and the recommendation (threshold 0.6) is
true. -/
theorem example_buy_full_confirmation :
    ((1 : ℚ)/2 + 1/10 + 3/20 + 1/10 + 1/10 + 1/10 = 21/20) ∧
    calculate_fallback_score reqC7 = 1 ∧
    predict_signal none (3/5) reqC7 =
      Except.ok
        { symbol := "BTCUSDT", side := "BUY", probability := 1,
          recommended := true, confidence := "HIGH" } := by
  have hs : calculate_fallback_score reqC7 = 1 := by
    norm_num [calculate_fallback_score, reqC7, min_def, max_def]
  refine ⟨by norm_num, hs, ?_⟩
  simp only [predict_signal, hs]
  norm_num [confidence_of, reqC7]

/-- Helper: clamping to [0, 1] keeps any value at least 1/2 inside
[1/2, 1]. -/
lemma clamp_bounds (s : ℚ) (h : 1/2 ≤ s) :
    1/2 ≤ max 0 (min 1 s) ∧ max 0 (min 1 s) ≤ 1 := by
  constructor
  · rcases le_total s 1 with hs | hs
    · rw [min_eq_right hs, max_eq_right (le_trans (by norm_num) h)]
      exact h
    · rw [min_eq_left hs]
      norm_num
  · exact max_le (by norm_num) (min_le_left _ _)

set_option maxHeartbeats 1000000 in
/-- Claim C4: for every valid request (side BUY or SELL) the fallback
score lies in [0.5, 1]: the base is 0.5, every bonus is non-negative, and
the clamp caps the maximal attainable sum 1.05 at 1. -/
theorem fallback_score_bounds (request : SignalRequest)
    (h : request.side = "BUY" ∨ request.side = "SELL") :
    1/2 ≤ calculate_fallback_score request ∧
    calculate_fallback_score request ≤ 1 := by
  simp only [calculate_fallback_score]
  exact clamp_bounds _ (by split_ifs <;> norm_num)

/-- Instance of `fallback_score_bounds` at the worked specification BUY
example. -/
theorem fallback_score_bounds_witness :
    1/2 ≤ calculate_fallback_score reqC7 ∧
    calculate_fallback_score reqC7 ≤ 1 :=
  fallback_score_bounds reqC7 (Or.inl rfl)

set_option maxHeartbeats 1000000 in
/-- Claim C10: the synthetic win probability always lies in [0.35, 1]:
the RSI term can subtract 0.15 from the base 0.5, and the maximal bonus
sum 0.10 + 0.15 + 0.10 + 0.05 + 0.10 reaches exactly 1. Both bounds are
attained at draws inside the ranges of the generator. -/
theorem synthetic_win_prob_bounds (side : String)
    (rsi adx cvd volume_ratio ema_alignment : ℚ) :
    7/20 ≤ synthetic_win_prob side rsi adx cvd volume_ratio ema_alignment ∧
    synthetic_win_prob side rsi adx cvd volume_ratio ema_alignment ≤ 1 ∧
    synthetic_win_prob "BUY" 75 10 (-1) 1 (-1) = 7/20 ∧
    synthetic_win_prob "BUY" 30 30 1 (3/2) 1 = 1 := by
  refine ⟨?_, ?_,
    by norm_num [synthetic_win_prob, (by decide : ("BUY" : String) ≠ "SELL")],
    by norm_num [synthetic_win_prob, (by decide : ("BUY" : String) ≠ "SELL")]⟩ <;>
  · simp only [synthetic_win_prob]
    split_ifs <;> norm_num

/-- Claim C5: the confidence tier is HIGH exactly when the probability is
at least 0.8, MEDIUM exactly when it is in [0.6, 0.8), LOW exactly when it
is below 0.6; the lower boundaries are closed and every probability falls
in exactly one band. -/
theorem confidence_bands (p : ℚ) :
    (confidence_of p = "HIGH" ↔ 8/10 ≤ p) ∧
    (confidence_of p = "MEDIUM" ↔ 6/10 ≤ p ∧ p < 8/10) ∧
    (confidence_of p = "LOW" ↔ p < 6/10) ∧
    (confidence_of p = "HIGH" ∨ confidence_of p = "MEDIUM" ∨
      confidence_of p = "LOW") := by
  unfold confidence_of
  split_ifs with h1 h2
  · exact ⟨⟨fun _ => h1, fun _ => rfl⟩,
      ⟨fun hc => absurd hc (by decide), fun hp => absurd hp.2 (not_lt.mpr h1)⟩,
      ⟨fun hc => absurd hc (by decide),
        fun hlt => absurd hlt (not_lt.mpr (le_trans (by norm_num) h1))⟩,
      Or.inl rfl⟩
  · exact ⟨⟨fun hc => absurd hc (by decide), fun hp => absurd hp h1⟩,
      ⟨fun _ => ⟨h2, not_le.mp h1⟩, fun _ => rfl⟩,
      ⟨fun hc => absurd hc (by decide), fun hlt => absurd hlt (not_lt.mpr h2)⟩,
      Or.inr (Or.inl rfl)⟩
  · exact ⟨⟨fun hc => absurd hc (by decide), fun hp => absurd hp h1⟩,
      ⟨fun hc => absurd hc (by decide), fun hp => absurd hp.1 h2⟩,
      ⟨fun _ => not_le.mp h2, fun _ => rfl⟩,
      Or.inr (Or.inr rfl)⟩

/-- Claim C6: whenever `predict_signal` returns a response, its
`recommended` flag is true exactly when the returned probability reaches
the configured threshold. -/
theorem recommended_iff_threshold (model : Option ModelFn)
    (min_probability : ℚ) (request : SignalRequest) (resp : SignalResponse)
    (h : predict_signal model min_probability request = Except.ok resp) :
    resp.recommended = decide (resp.probability ≥ min_probability) := by
  cases model with
  | none =>
      simp only [predict_signal, Except.ok.injEq] at h
      subst h
      rfl
  | some m =>
      cases hm : m (features request) with
      | error e =>
          simp only [predict_signal, hm] at h
          exact Except.noConfusion h
      | ok prob =>
          simp only [predict_signal, hm, Except.ok.injEq] at h
          subst h
          rfl

/-- Instance of `recommended_iff_threshold` on a SELL request scored 0.5
in fallback mode against the default threshold 0.6. -/
theorem recommended_iff_threshold_witness :
    (SignalResponse.mk "ETHUSDT" "SELL" (1/2) false "LOW").recommended =
      decide ((SignalResponse.mk "ETHUSDT" "SELL" (1/2) false "LOW").probability
        ≥ 3/5) :=
  recommended_iff_threshold none (3/5) reqBase
    (SignalResponse.mk "ETHUSDT" "SELL" (1/2) false "LOW")
    (by norm_num [predict_signal, calculate_fallback_score, confidence_of,
      reqBase, min_def, max_def, (by decide : ("SELL" : String) ≠ "BUY"),
      decide_eq_false_iff_not, decide_eq_true_eq])

/-- Claim C2 counterexample: with a loaded model whose probability
prediction raises, `predict_signal` propagates the error (an HTTP 500)
instead of returning the fallback-scored success the claim promises. -/
theorem model_error_no_fallback :
    predict_signal (some (fun _ => Except.error "shape mismatch")) (3/5) reqC7
      = Except.error "shape mismatch" ∧
    predict_signal (some (fun _ => Except.error "shape mismatch")) (3/5) reqC7
      ≠ Except.ok
          { symbol := "BTCUSDT", side := "BUY",
            probability := calculate_fallback_score reqC7,
            recommended := true, confidence := "HIGH" } := by
  have h1 : predict_signal (some (fun _ => Except.error "shape mismatch"))
      (3/5) reqC7 = Except.error "shape mismatch" := rfl
  refine ⟨h1, ?_⟩
  rw [h1]
  exact fun hcontra => Except.noConfusion hcontra

/-- Claim C2 as amended: when the prediction of the loaded model raises, the
error propagates out of `predict_signal` (surfaced as an HTTP 500); the
rule-based fallback is used only when no model is loaded. -/
theorem model_error_propagates (m : ModelFn) (min_probability : ℚ)
    (request : SignalRequest) (e : String)
    (h : m (features request) = Except.error e) :
    predict_signal (some m) min_probability request = Except.error e := by
  simp only [predict_signal, h]

/-- Instance of `model_error_propagates` at a concrete failing model. -/
theorem model_error_propagates_witness :
    predict_signal (some (fun _ => Except.error "boom")) (3/5) reqOrder
      = Except.error "boom" :=
  model_error_propagates (fun _ => Except.error "boom") (3/5) reqOrder
    "boom" rfl

/-- Claim C3 counterexample: a request with the malformed side LONG is not
rejected: the service scores it in fallback mode and returns a complete
response (probability 0.6, recommended, MEDIUM confidence). -/
theorem invalid_side_accepted :
    predict_signal none (3/5) reqLong =
      Except.ok
        { symbol := "BTCUSDT", side := "LONG", probability := 3/5,
          recommended := true, confidence := "MEDIUM" } := by
  norm_num [predict_signal, calculate_fallback_score, confidence_of, reqLong,
    min_def, max_def, (by decide : ("LONG" : String) ≠ "BUY"),
    (by decide : ("LONG" : String) ≠ "SELL"), decide_eq_true_eq]

/-- Claim C3 as amended: the service validates neither the side string nor
anything else: a request whose side is not BUY or SELL is accepted, its
side is encoded as 0.0 in the feature row, and fallback scoring returns a
complete response rather than a validation error. -/
theorem invalid_side_scored (request : SignalRequest) (min_probability : ℚ)
    (h1 : request.side ≠ "BUY") (h2 : request.side ≠ "SELL") :
    features request = [request.rsi, request.macd, request.macd_signal,
      request.macd - request.macd_signal, request.ema_alignment,
      request.atr_percent, request.volume_ratio, request.cvd, request.adx,
      0] ∧
    predict_signal none min_probability request =
      Except.ok
        { symbol := request.symbol, side := request.side,
          probability := calculate_fallback_score request,
          recommended :=
            decide (calculate_fallback_score request ≥ min_probability),
          confidence := confidence_of (calculate_fallback_score request) } := by
  constructor
  · simp [features, h1]
  · rfl

/-- Instance of `invalid_side_scored` at the LONG request. -/
theorem invalid_side_scored_witness :
    features reqLong = [reqLong.rsi, reqLong.macd, reqLong.macd_signal,
      reqLong.macd - reqLong.macd_signal, reqLong.ema_alignment,
      reqLong.atr_percent, reqLong.volume_ratio, reqLong.cvd, reqLong.adx,
      0] ∧
    predict_signal none (3/5) reqLong =
      Except.ok
        { symbol := reqLong.symbol, side := reqLong.side,
          probability := calculate_fallback_score reqLong,
          recommended :=
            decide (calculate_fallback_score reqLong ≥ 3/5),
          confidence := confidence_of (calculate_fallback_score reqLong) } :=
  invalid_side_scored reqLong (3/5) (by decide) (by decide)

/-- Claim C8: `fetch_trade_data` never propagates a data-source failure:
with no token configured it returns the synthetic dataset, on a query
error it returns the synthetic dataset, and on a successful query with
fewer than 50 records it returns the fetched records supplemented with the
synthetic ones. -/
theorem fetch_trade_data_no_failure (draws : List SampleDraws) (e : String)
    (records : List InfluxRecord) (h : records.length < 50) :
    fetch_trade_data false (Except.ok records) draws =
      (generate_synthetic_data draws).map Row.synthetic ∧
    fetch_trade_data true (Except.error e) draws =
      (generate_synthetic_data draws).map Row.synthetic ∧
    fetch_trade_data true (Except.ok records) draws =
      records.map Row.fetched ++
        (generate_synthetic_data draws).map Row.synthetic := by
  refine ⟨rfl, rfl, ?_⟩
  simp [fetch_trade_data, h]

/-- Instance of `fetch_trade_data_no_failure` at an empty query result. -/
theorem fetch_trade_data_no_failure_witness :
    fetch_trade_data false (Except.ok []) [] =
      (generate_synthetic_data []).map Row.synthetic ∧
    fetch_trade_data true (Except.error "unreachable") [] =
      (generate_synthetic_data []).map Row.synthetic ∧
    fetch_trade_data true (Except.ok []) [] =
      List.map Row.fetched [] ++
        (generate_synthetic_data []).map Row.synthetic :=
  fetch_trade_data_no_failure [] "unreachable" [] (by simp)

/-- Claim C9 counterexample: a LONG request is not scored as a SELL: on
indicators where the SELL branches of the CVD and EMA rules would award
bonuses (cvd < 0, ema < 0), the LONG request scores 0.6 while the same
request with side SELL scores 0.8. -/
theorem nonbuy_not_scored_as_sell :
    calculate_fallback_score reqLong = 3/5 ∧
    calculate_fallback_score reqLongAsSell = 4/5 ∧
    calculate_fallback_score reqLong ≠ calculate_fallback_score reqLongAsSell := by
  have e1 : calculate_fallback_score reqLong = 3/5 := by
    norm_num [calculate_fallback_score, reqLong, min_def, max_def,
      (by decide : ("LONG" : String) ≠ "BUY"),
      (by decide : ("LONG" : String) ≠ "SELL")]
  have e2 : calculate_fallback_score reqLongAsSell = 4/5 := by
    norm_num [calculate_fallback_score, reqLongAsSell, reqLong, min_def,
      max_def, (by decide : ("SELL" : String) ≠ "BUY")]
  refine ⟨e1, e2, ?_⟩
  rw [e1, e2]
  norm_num

/-- Claim C9 as amended: a request whose side is neither BUY nor SELL is
encoded like a SELL in the feature row (side_encoded 0.0) and gets the
else-branch (SELL) RSI rule, but the CVD and EMA confirmations test for
the exact string SELL and never fire, so only the RSI, ADX and volume
terms contribute to its fallback score. -/
theorem nonbuy_side_scoring (request : SignalRequest)
    (h1 : request.side ≠ "BUY") (h2 : request.side ≠ "SELL") :
    features request = features { request with side := "SELL" } ∧
    calculate_fallback_score request =
      max 0 (min 1 ((1 : ℚ)/2
        + (if 40 ≤ request.rsi ∧ request.rsi ≤ 60 then 1/10
           else if request.rsi > 70 then 1/20 else 0)
        + (if request.adx > 25 then 3/20
           else if request.adx > 20 then 2/25 else 0)
        + (if request.volume_ratio > 6/5 then 1/10 else 0))) := by
  constructor
  · simp [features, h1, (by decide : ("SELL" : String) ≠ "BUY")]
  · simp [calculate_fallback_score, h1, h2]

/-- Instance of `nonbuy_side_scoring` at the LONG request. -/
theorem nonbuy_side_scoring_witness :
    features reqLong = features { reqLong with side := "SELL" } ∧
    calculate_fallback_score reqLong =
      max 0 (min 1 ((1 : ℚ)/2
        + (if 40 ≤ reqLong.rsi ∧ reqLong.rsi ≤ 60 then 1/10
           else if reqLong.rsi > 70 then 1/20 else 0)
        + (if reqLong.adx > 25 then 3/20
           else if reqLong.adx > 20 then 2/25 else 0)
        + (if reqLong.volume_ratio > 6/5 then 1/10 else 0))) :=
  nonbuy_side_scoring reqLong (by decide) (by decide)

end MLService
